import Mathlib

/-!
Shallow embedding of `mace/modules/blocks.py` (message-passing blocks, the
matrix-function block and the two custom normalization layers).

Conventions of the embedding:
* float tensors are modelled over `ℚ` (machine-float transcendental
  primitives `exp` and `sqrt` of the tensor engine are abstracted as
  function parameters `expf`, `sqrtf`, since no verified property depends
  on their values); the complex pole construction, whose property is about
  the mathematical exponential, is modelled over `ℝ`/`ℂ`;
* a stateful module is a state structure plus a `forward` function that
  returns the new state together with the output;
* `raise` in the source becomes an `Except PyError` result;
* learned sub-modules (MLPs, irrep-typed linear maps, tensor products) and
  the batched LU engine are out-of-scope black boxes in the specification
  and are modelled as abstract function parameters.
-/

/-- Python exceptions raised by this file of the source. -/
inductive PyError where
  | notImplementedError : PyError
  | valueError : String → PyError
deriving DecidableEq

/-! ## SwitchNorm1d -/

/-- State of `SwitchNorm1d`: constructor hyperparameters, learned
parameters, running-statistics buffers and the module-wide training flag. -/
structure SwitchState where
  num_features : ℕ
  eps : ℚ
  momentum : ℚ
  using_moving_average : Bool
  training : Bool
  weight : ℕ → ℚ
  bias : ℕ → ℚ
  mean_weight : Fin 2 → ℚ
  var_weight : Fin 2 → ℚ
  running_mean : ℕ → ℚ
  running_var : ℕ → ℚ

/-- A tensor of arbitrary rank: a shape together with flat row-major data.
Used to model the rank check at the entry of `SwitchNorm1d.forward`. -/
structure PTensor where
  dims : List ℕ
  data : List ℚ

namespace SwitchNorm1d

/-- `torch.nn.Softmax(0)` applied to a 2-vector, with the float `exp`
abstracted as `expf`. -/
def softmax (expf : ℚ → ℚ) (w : Fin 2 → ℚ) : Fin 2 → ℚ :=
  fun k => expf (w k) / (expf (w 0) + expf (w 1))

/-- `SwitchNorm1d.reset_parameters`: zero both running buffers, set the
affine weight to one and the bias to zero. -/
def reset_parameters (s : SwitchState) : SwitchState :=
  { s with
    running_mean := fun _ => 0
    running_var := fun _ => 0
    weight := fun _ => 1
    bias := fun _ => 0 }

/-- `SwitchNorm1d.__init__` with the default hyperparameters
(`eps=1e-5`, `momentum=0.997`, `using_moving_average=True`); torch modules
start in training mode. The constructor ends by calling
`reset_parameters`. -/
def init (num_features : ℕ) : SwitchState :=
  reset_parameters
    { num_features := num_features
      eps := 1 / 100000
      momentum := 997 / 1000
      using_moving_average := true
      training := true
      weight := fun _ => 1
      bias := fun _ => 0
      mean_weight := fun _ => 1
      var_weight := fun _ => 1
      running_mean := fun _ => 0
      running_var := fun _ => 0 }

/-- `x.mean(1, keepdim=True)`: per-sample mean across the `f` features. -/
def mean_ln (f : ℕ) (x : ℕ → ℕ → ℚ) (i : ℕ) : ℚ :=
  (∑ j ∈ Finset.range f, x i j) / (f : ℚ)

/-- `x.var(1, keepdim=True)`: per-sample unbiased variance across features. -/
def var_ln (f : ℕ) (x : ℕ → ℕ → ℚ) (i : ℕ) : ℚ :=
  (∑ j ∈ Finset.range f, (x i j - mean_ln f x i) ^ 2) / ((f : ℚ) - 1)

/-- `x.mean(0, keepdim=True)`: per-feature mean across the `b` samples. -/
def mean_bn (b : ℕ) (x : ℕ → ℕ → ℚ) (j : ℕ) : ℚ :=
  (∑ i ∈ Finset.range b, x i j) / (b : ℚ)

/-- `x.var(0, keepdim=True)`: per-feature unbiased variance across samples. -/
def var_bn (b : ℕ) (x : ℕ → ℕ → ℚ) (j : ℕ) : ℚ :=
  (∑ i ∈ Finset.range b, (x i j - mean_bn b x j) ^ 2) / ((b : ℚ) - 1)

/-- The batch mean used for blending: the batch statistic in training
mode, the frozen `running_mean` buffer in evaluation mode. -/
def mean_bn_used (s : SwitchState) (b : ℕ) (x : ℕ → ℕ → ℚ) : ℕ → ℚ :=
  if s.training then fun j => mean_bn b x j else s.running_mean

/-- The batch variance used for blending: the batch statistic in training
mode, the frozen `running_var` buffer in evaluation mode. -/
def var_bn_used (s : SwitchState) (b : ℕ) (x : ℕ → ℕ → ℚ) : ℕ → ℚ :=
  if s.training then fun j => var_bn b x j else s.running_var

/-- The softmax-blended mean
`mean_weight[0] * mean_ln + mean_weight[1] * mean_bn` (broadcast to
`[b, f]`). -/
def blended_mean (expf : ℚ → ℚ) (s : SwitchState) (b f : ℕ)
    (x : ℕ → ℕ → ℚ) (i j : ℕ) : ℚ :=
  softmax expf s.mean_weight 0 * mean_ln f x i
    + softmax expf s.mean_weight 1 * mean_bn_used s b x j

/-- The softmax-blended variance
`var_weight[0] * var_ln + var_weight[1] * var_bn` (broadcast to `[b, f]`). -/
def blended_var (expf : ℚ → ℚ) (s : SwitchState) (b f : ℕ)
    (x : ℕ → ℕ → ℚ) (i j : ℕ) : ℚ :=
  softmax expf s.var_weight 0 * var_ln f x i
    + softmax expf s.var_weight 1 * var_bn_used s b x j

/-- The buffer update performed by a training-mode forward pass:
exponential moving average when `using_moving_average`, otherwise the
accumulating branch of the source. Evaluation mode leaves the state
untouched. -/
def updated_state (s : SwitchState) (b : ℕ) (x : ℕ → ℕ → ℚ) : SwitchState :=
  if s.training then
    if s.using_moving_average then
      { s with
        running_mean := fun j =>
          s.momentum * s.running_mean j + (1 - s.momentum) * mean_bn b x j
        running_var := fun j =>
          s.momentum * s.running_var j + (1 - s.momentum) * var_bn b x j }
    else
      { s with
        running_mean := fun j => s.running_mean j + mean_bn b x j
        running_var := fun j =>
          s.running_var j + (mean_bn b x j) ^ 2 + var_bn b x j }
  else s

/-- `SwitchNorm1d.forward` on a rank-2 input of shape `[b, f]` (the rank
check itself is modelled by `forwardTensor`): blends layer and batch
statistics and applies the affine normalization
`(x - mean) / sqrt(var + eps) * weight + bias`. -/
def forward (expf sqrtf : ℚ → ℚ) (s : SwitchState) (b f : ℕ)
    (x : ℕ → ℕ → ℚ) : SwitchState × (ℕ → ℕ → ℚ) :=
  (updated_state s b x,
   fun i j =>
     (x i j - blended_mean expf s b f x i j)
       / sqrtf (blended_var expf s b f x i j + s.eps) * s.weight j + s.bias j)

/-- `SwitchNorm1d._check_input_dim`: reject any input whose rank is not 2. -/
def check_input_dim (ndim : ℕ) : Except PyError Unit :=
  if ndim = 2 then Except.ok ()
  else Except.error
    (PyError.valueError ("expected 2D input (got " ++ toString ndim ++ "D input)"))

/-- `SwitchNorm1d.forward` on an arbitrary-rank tensor: the dimension
check runs first and a non-2D input fails before any statistic is
computed; a 2D input is interpreted as a `[b, f]` matrix and normalized. -/
def forwardTensor (expf sqrtf : ℚ → ℚ) (s : SwitchState) (t : PTensor) :
    Except PyError (SwitchState × (ℕ → ℕ → ℚ)) :=
  match check_input_dim t.dims.length with
  | Except.error e => Except.error e
  | Except.ok _ =>
      let b := t.dims.getD 0 0
      let f := t.dims.getD 1 0
      Except.ok (forward expf sqrtf s b f (fun i j => t.data.getD (i * f + j) 0))

end SwitchNorm1d

/-! ## EigenvalueNorm -/

/-- State of `EigenvalueNorm`: hyperparameters, learned affine parameters,
running eigenvalue-statistics buffers and the training flag. -/
structure EigState where
  num_features : ℕ
  eps : ℚ
  momentum : ℚ
  using_moving_average : Bool
  training : Bool
  weight : ℕ → ℚ
  bias : ℕ → ℚ
  running_mean : ℕ → ℚ
  running_var : ℕ → ℚ

namespace EigenvalueNorm

/-- `EigenvalueNorm.reset_parameters`: running mean to zero, running
variance to one, bias to zero, weight to one. -/
def reset_parameters (s : EigState) : EigState :=
  { s with
    running_mean := fun _ => 0
    running_var := fun _ => 1
    bias := fun _ => 0
    weight := fun _ => 1 }

/-- `EigenvalueNorm.__init__` with default hyperparameters; the
constructor registers `running_mean` as zeros and `running_var` as ones
and then calls `reset_parameters`. -/
def init (num_features : ℕ) : EigState :=
  reset_parameters
    { num_features := num_features
      eps := 1 / 100000
      momentum := 997 / 1000
      using_moving_average := true
      training := true
      weight := fun _ => 1
      bias := fun _ => 0
      running_mean := fun _ => 0
      running_var := fun _ => 1 }

/-- The 4-D mask actually multiplied with the input: all ones when no mask
is given, otherwise the reformatted outer product
`mask[:,None,:,None] * mask[:,None,None,:]`. -/
def mask_matrix (mask : Option (ℕ → ℕ → ℚ)) : ℕ → ℕ → ℕ → ℕ → ℚ :=
  match mask with
  | none => fun _ _ _ _ => 1
  | some m => fun b _ i j => m b i * m b j

/-- `n = einsum('bfii->bf', mask)`: the masked valid-node count. -/
def valid_count (N : ℕ) (maskM : ℕ → ℕ → ℕ → ℕ → ℚ) (b f : ℕ) : ℚ :=
  ∑ i ∈ Finset.range N, maskM b f i i

/-- `n2 = clamp(n - 1, min=1)`. -/
def clamp_count (N : ℕ) (maskM : ℕ → ℕ → ℕ → ℕ → ℚ) (b f : ℕ) : ℚ :=
  max (valid_count N maskM b f - 1) 1

/-- `trace = einsum('bfii->bf', matrix * mask)`. -/
def trace_masked (N : ℕ) (maskM x : ℕ → ℕ → ℕ → ℕ → ℚ) (b f : ℕ) : ℚ :=
  ∑ i ∈ Finset.range N, x b f i i * maskM b f i i

/-- `trace_square = einsum('bfii->bf', (matrix_power(matrix,2) * mask) * mask)`:
the squared matrix is multiplied by the mask once when formed and once
more inside the einsum, exactly as in the source. -/
def trace_square_masked (N : ℕ) (maskM x : ℕ → ℕ → ℕ → ℕ → ℚ) (b f : ℕ) : ℚ :=
  ∑ i ∈ Finset.range N,
    (∑ k ∈ Finset.range N, x b f i k * x b f k i)
      * maskM b f i i * maskM b f i i

/-- `EigenvalueNorm._mean_and_variance_trace`: trace-based per-channel
mean `trace/n` and Bessel-corrected variance
`trace_square/n2 - trace^2/(n*n2)`, averaged over the batch. -/
def mean_and_variance_trace (B N : ℕ) (maskM x : ℕ → ℕ → ℕ → ℕ → ℚ) :
    (ℕ → ℚ) × (ℕ → ℚ) :=
  (fun f =>
      (∑ b ∈ Finset.range B,
        trace_masked N maskM x b f / valid_count N maskM b f) / (B : ℚ),
   fun f =>
      (∑ b ∈ Finset.range B,
        (trace_square_masked N maskM x b f / clamp_count N maskM b f
          - (trace_masked N maskM x b f) ^ 2
              / (valid_count N maskM b f * clamp_count N maskM b f))) / (B : ℚ))

/-- The buffer update of a training-mode forward pass of `EigenvalueNorm`
(exponential moving average or plain accumulation); evaluation mode leaves
the state untouched. -/
def updated_state (s : EigState) (B N : ℕ)
    (maskM x : ℕ → ℕ → ℕ → ℕ → ℚ) : EigState :=
  if s.training then
    if s.using_moving_average then
      { s with
        running_mean := fun f =>
          s.momentum * s.running_mean f
            + (1 - s.momentum) * (mean_and_variance_trace B N maskM x).1 f
        running_var := fun f =>
          s.momentum * s.running_var f
            + (1 - s.momentum) * (mean_and_variance_trace B N maskM x).2 f }
    else
      { s with
        running_mean := fun f =>
          s.running_mean f + (mean_and_variance_trace B N maskM x).1 f
        running_var := fun f =>
          s.running_var f + (mean_and_variance_trace B N maskM x).2 f }
  else s

/-- `EigenvalueNorm.forward` on `x : [B, F, N, N]` with an optional
`[B, N]` node-validity mask: after the (training-mode only) buffer
update, the input is centered by the running mean on the diagonal, masked,
divided by `sqrt(running_var + eps)`, scaled by the per-channel weight and
shifted by the per-channel diagonal bias. -/
def forward (sqrtf : ℚ → ℚ) (s : EigState) (B F N : ℕ)
    (x : ℕ → ℕ → ℕ → ℕ → ℚ) (mask : Option (ℕ → ℕ → ℚ)) :
    EigState × (ℕ → ℕ → ℕ → ℕ → ℚ) :=
  let maskM := mask_matrix mask
  let s' := updated_state s B N maskM x
  (s',
   fun b f i j =>
     (x b f i j - (if i = j then s'.running_mean f else 0)) * maskM b f i j
       / sqrtf (s'.running_var f + s.eps) * s.weight f
       + (if i = j then s.bias f else 0))

/-- The normalization of `EigenvalueNorm` as a pure function of a mean
buffer `m` and a variance buffer `v` (the spec-side description: subtract
`m` on the diagonal, mask, divide by `sqrt(v + eps)`, apply the affine
parameters). -/
def apply_stats (sqrtf : ℚ → ℚ) (eps : ℚ) (m v weight bias : ℕ → ℚ)
    (maskM x : ℕ → ℕ → ℕ → ℕ → ℚ) : ℕ → ℕ → ℕ → ℕ → ℚ :=
  fun b f i j =>
    (x b f i j - (if i = j then m f else 0)) * maskM b f i j
      / sqrtf (v f + eps) * weight f
      + (if i = j then bias f else 0)

end EigenvalueNorm

/-! ## MatrixFunctionBlock -/

/-- A dense batched matrix `[n_graphs, n_features, max_nodes, max_nodes]`. -/
abbrev BDense (G C n : ℕ) : Type := Fin G → Fin C → Fin n → Fin n → ℚ

/-- The tensor-computation stages of `MatrixFunctionBlock.forward`, in
source order; the log of executed stages makes "what ran before a
failure" expressible. -/
inductive MFStep where
  | computeMask
  | linearScalar
  | edgeFeatsMLP
  | symmetricNodeFeats
  | matrixMLP
  | toDenseAdj
  | repeatPoles
  | setDiagonal
  | addEpsilon
  | addMatrixFeats
  | buildPoles
  | matrixNorm
  | buildResolvent
  | luFactor
  | luSolve
  | extractDiagonal
  | normalizeRealImag
  | linearOut
  | skipNorm
deriving DecidableEq

namespace MatrixFunctionBlock

/-- `degree = sum(abs(H_dense), axis=-1)`: row-wise absolute sum. -/
def degree {n : ℕ} (H : Fin n → Fin n → ℚ) (i : Fin n) : ℚ :=
  ∑ j, |H i j|

/-- The `diagonal == "laplacian"` branch:
`H_dense = diag_embed(degree) - H_dense`. -/
def laplacian_diag {n : ℕ} (H : Fin n → Fin n → ℚ) : Fin n → Fin n → ℚ :=
  fun i j => (if i = j then degree H i else 0) - H i j

/-- The diagonal-policy dispatch of `MatrixFunctionBlock.forward`:
`"learnable"` adds the MLP-produced diagonal, `"laplacian"` builds the
graph Laplacian, `"normalised_laplacian"` raises `NotImplementedError`,
and any other string leaves the matrix unchanged (no branch matches). -/
def set_diagonal {G C n : ℕ} (diagonal : String) (H : BDense G C n)
    (diag_H : Fin G → Fin C → Fin n → ℚ) : Except PyError (BDense G C n) :=
  if diagonal = "learnable" then
    Except.ok (fun g c i j => H g c i j + (if i = j then diag_H g c i else 0))
  else if diagonal = "laplacian" then
    Except.ok (fun g c => laplacian_diag (H g c))
  else if diagonal = "normalised_laplacian" then
    Except.error PyError.notImplementedError
  else
    Except.ok H

/-- `H_dense = H_dense + diag_embed(ones) * 1e-9`: the unconditional
diagonal epsilon regularization. -/
def add_eps {G C n : ℕ} (H : BDense G C n) : BDense G C n :=
  fun g c i j => H g c i j + (if i = j then (1 : ℚ) / 1000000000 else 0)

/-- The stages `MatrixFunctionBlock.forward` executes before the
diagonal-policy dispatch: mask construction, the scalar linear projection,
the edge-feature MLP, the symmetric sender-receiver product, the matrix
MLP, the dense scatter and the pole replication. -/
def front_steps : List MFStep :=
  [MFStep.computeMask, MFStep.linearScalar, MFStep.edgeFeatsMLP,
   MFStep.symmetricNodeFeats, MFStep.matrixMLP, MFStep.toDenseAdj,
   MFStep.repeatPoles]

/-- The stages executed from the diagonal-policy dispatch onward when the
policy succeeds. -/
def tail_steps (has_matrix_feats skip_connection : Bool) : List MFStep :=
  [MFStep.setDiagonal, MFStep.addEpsilon]
    ++ (if has_matrix_feats then [MFStep.addMatrixFeats] else [])
    ++ [MFStep.buildPoles, MFStep.matrixNorm, MFStep.buildResolvent,
        MFStep.luFactor, MFStep.luSolve, MFStep.extractDiagonal,
        MFStep.normalizeRealImag, MFStep.linearOut]
    ++ (if skip_connection then [MFStep.skipNorm] else [])

/-- `MatrixFunctionBlock.forward`. The learned front end (scalar
projection, edge MLP, matrix MLP, dense scatter, pole replication) is the
abstract `dense_H`; the learnable-diagonal MLP is the abstract `diag_mlp`;
everything after the carried-state addition (poles, eigenvalue norm,
resolvent, batched LU solve, output normalization and projection) is the
abstract `tail`, all black-box tensor-engine calls in the specification.
The function returns the log of executed stages together with either the
output or the raised exception. -/
def forward {G C n : ℕ} {NodeFeats EdgeFeats Out : Type}
    (diagonal : String) (skip_connection : Bool)
    (dense_H : NodeFeats → EdgeFeats → BDense G C n)
    (diag_mlp : NodeFeats → Fin G → Fin C → Fin n → ℚ)
    (tail : BDense G C n → Out)
    (node_feats : NodeFeats) (edge_feats : EdgeFeats)
    (matrix_feats : Option (BDense G C n)) :
    List MFStep × Except PyError Out :=
  let H0 := dense_H node_feats edge_feats
  match set_diagonal diagonal H0 (diag_mlp node_feats) with
  | Except.error e => (front_steps, Except.error e)
  | Except.ok H1 =>
      let H2 := add_eps H1
      let H3 := match matrix_feats with
        | some M => fun g c i j => H2 g c i j + M g c i j
        | none => H2
      (front_steps ++ tail_steps matrix_feats.isSome skip_connection,
       Except.ok (tail H3))

/-- The complex pole construction of `MatrixFunctionBlock.forward`: with
`learnable_resolvent` the pole is `z_k_real + i * exp(z_k_complex)`,
otherwise the fixed `0 + i * 1`. -/
noncomputable def z_k (learnable_resolvent : Bool)
    (z_k_real z_k_complex : ℝ) : ℂ :=
  if learnable_resolvent then ⟨z_k_real, Real.exp z_k_complex⟩ else ⟨0, 1⟩

end MatrixFunctionBlock

/-! ## EquivariantProductBasisBlock -/

/-- `EquivariantProductBasisBlock.forward`: the symmetric contraction
(abstract learned sub-module `symmetric_contractions`) followed by the
typed linear map (abstract `linear`); the skip term `sc` is added after
the linear map exactly when `use_sc` is set and `sc` is not `None`. -/
def EquivariantProductBasisBlock.forward {NF NA B Out : Type} [Add Out]
    (symmetric_contractions : NF → NA → B) (linear : B → Out)
    (use_sc : Bool) (node_feats : NF) (sc : Option Out) (node_attrs : NA) :
    Out :=
  let nf := symmetric_contractions node_feats node_attrs
  if use_sc then
    match sc with
    | some s => linear nf + s
    | none => linear nf
  else linear nf

/-! ## scatter_sum and the interaction blocks -/

/-- `scatter_sum(src, index, dim=0)`: each entry is a pair of a receiver
index and a message; node `i` aggregates the sum of the messages of the
entries indexed to it. -/
def scatter_sum {M : Type} [AddCommMonoid M] (entries : List (ℕ × M)) :
    ℕ → M :=
  fun i => ((entries.filter (fun e => e.1 == i)).map Prod.snd).sum

/-- One edge of the sparse graph input of an interaction block: sender
index, receiver index, directional attribute, radial feature. -/
structure EdgeInput (EA EF : Type) where
  sender : ℕ
  receiver : ℕ
  edge_attr : EA
  edge_feat : EF
deriving DecidableEq

namespace ResidualElementDependentInteractionBlock

/-- The aggregated per-node message of
`ResidualElementDependentInteractionBlock.forward`: per edge, the tensor
product (abstract `conv_tp`) of the up-projected sender features with the
edge attribute, weighted by the element-indexed bilinear lookup (abstract
`conv_tp_weights` applied to the sender one-hot and the radial features),
scatter-summed at the receiver. -/
def message {NA NF EA EF TW M : Type} [AddCommMonoid M]
    (linear_up : NF → NF) (conv_tp_weights : NA → EF → TW)
    (conv_tp : NF → EA → TW → M)
    (node_attrs : ℕ → NA) (node_feats : ℕ → NF)
    (edges : List (EdgeInput EA EF)) : ℕ → M :=
  scatter_sum (edges.map (fun e =>
    (e.receiver,
     conv_tp (linear_up (node_feats e.sender)) e.edge_attr
       (conv_tp_weights (node_attrs e.sender) e.edge_feat))))

/-- `ResidualElementDependentInteractionBlock.forward`: the aggregated
message through the final typed linear map, divided by the average
neighbor count, plus the immediately-fused skip term
`skip_tp(node_feats, node_attrs)`. -/
def forward {NA NF EA EF TW M W : Type} [AddCommMonoid M]
    [AddCommGroup W] [Module ℚ W]
    (skip_tp : NF → NA → W) (linear_up : NF → NF)
    (conv_tp_weights : NA → EF → TW) (conv_tp : NF → EA → TW → M)
    (linear : M → W) (avg_num_neighbors : ℚ)
    (node_attrs : ℕ → NA) (node_feats : ℕ → NF)
    (edges : List (EdgeInput EA EF)) : ℕ → W :=
  fun i =>
    (avg_num_neighbors)⁻¹ •
        linear (message linear_up conv_tp_weights conv_tp node_attrs
          node_feats edges i)
      + skip_tp (node_feats i) (node_attrs i)

end ResidualElementDependentInteractionBlock

namespace RealAgnosticInteractionBlock

/-- The aggregated per-node message of
`RealAgnosticInteractionBlock.forward`: as above but the per-edge weights
come from the shared radial MLP over the edge features alone. -/
def message {NF EA EF TW M : Type} [AddCommMonoid M]
    (linear_up : NF → NF) (conv_tp_weights : EF → TW)
    (conv_tp : NF → EA → TW → M) (node_feats : ℕ → NF)
    (edges : List (EdgeInput EA EF)) : ℕ → M :=
  scatter_sum (edges.map (fun e =>
    (e.receiver,
     conv_tp (linear_up (node_feats e.sender)) e.edge_attr
       (conv_tp_weights e.edge_feat))))

/-- `RealAgnosticInteractionBlock.forward`: linear map and neighbor-count
division of the aggregated message, post-aggregation multiplicative skip
tensor product with the node attributes, reshape, and a `None` second
component. -/
def forward {NA NF EA EF TW M W R : Type} [AddCommMonoid M]
    [AddCommGroup W] [Module ℚ W]
    (linear_up : NF → NF) (conv_tp_weights : EF → TW)
    (conv_tp : NF → EA → TW → M) (linear : M → W)
    (skip_tp : W → NA → W) (reshape : W → R) (avg_num_neighbors : ℚ)
    (node_attrs : ℕ → NA) (node_feats : ℕ → NF)
    (edges : List (EdgeInput EA EF)) : (ℕ → R) × Option Unit :=
  (fun i =>
    reshape (skip_tp
      ((avg_num_neighbors)⁻¹ •
        linear (message linear_up conv_tp_weights conv_tp node_feats edges i))
      (node_attrs i)),
   none)

end RealAgnosticInteractionBlock

/-! ## Concrete instances used by witnesses and counterexamples -/

/-- A trivial front end producing the zero dense matrix, for concrete
instantiations of `MatrixFunctionBlock.forward`. -/
def mfbDenseZero : Unit → Unit → BDense 1 1 1 := fun _ _ _ _ _ _ => 0

/-- A trivial learnable-diagonal MLP, for concrete instantiations. -/
def mfbDiagZero : Unit → Fin 1 → Fin 1 → Fin 1 → ℚ := fun _ _ _ _ => 0

/-- A trivial tail, for concrete instantiations. -/
def mfbTailUnit : BDense 1 1 1 → Unit := fun _ => ()

/-- The scattered dense matrix of a 3-node fully-connected graph with unit
edge entries: zero diagonal, one off the diagonal. -/
def mfbK3 : BDense 1 1 3 := fun _ _ i j => if i = j then 0 else 1

/-- The canonical graph Laplacian of that graph: `n - 1 = 2` on the
diagonal, `-1` off the diagonal. -/
def mfbL3 : BDense 1 1 3 := fun _ _ i j => if i = j then 2 else -1

/-! ## Helper lemmas -/

/-- Aggregation by `scatter_sum` depends only on the multiset of
(receiver, message) entries: permuting the entry list does not change any
node's aggregate. -/
theorem scatter_sum_perm {M : Type} [AddCommMonoid M]
    {l l' : List (ℕ × M)} (h : l.Perm l') : scatter_sum l = scatter_sum l' := by
  funext i
  exact List.Perm.sum_eq ((h.filter _).map _)

/-- The `"normalised_laplacian"` diagonal policy always raises
`NotImplementedError`. -/
theorem set_diagonal_normalised {G C n : ℕ} (H : BDense G C n)
    (d : Fin G → Fin C → Fin n → ℚ) :
    MatrixFunctionBlock.set_diagonal "normalised_laplacian" H d
      = Except.error PyError.notImplementedError := by
  unfold MatrixFunctionBlock.set_diagonal
  rw [if_neg (by decide), if_neg (by decide), if_pos rfl]

/-! ## Claims -/

/-- Claim C1, counterexample: on a concrete input, the forward pass with
`diagonal="normalised_laplacian"` does fail with the not-implemented
signal, but its executed-stage log is not empty — the mask construction,
the scalar projection, the edge and matrix MLPs and the dense scatter all
run before the failure, so the claim "fails before any tensor computation
proceeds" is false. -/
theorem C1_counterexample :
    (MatrixFunctionBlock.forward "normalised_laplacian" false mfbDenseZero
        mfbDiagZero mfbTailUnit () () none).2
      = Except.error PyError.notImplementedError
    ∧ ¬ (MatrixFunctionBlock.forward "normalised_laplacian" false mfbDenseZero
        mfbDiagZero mfbTailUnit () () none).1 = [] := by
  have h := set_diagonal_normalised (mfbDenseZero () ()) (mfbDiagZero ())
  constructor
  · simp [MatrixFunctionBlock.forward, h]
  · simp [MatrixFunctionBlock.forward, h, MatrixFunctionBlock.front_steps]

/-- Claim C1 (amended): for every `MatrixFunctionBlock` with
`diagonal="normalised_laplacian"`, `forward` on any input fails with a
not-implemented signal at the diagonal-policy dispatch — after the scalar
projection, edge MLP, matrix MLP and dense-matrix construction have run,
but before the diagonal epsilon regularization, the eigenvalue
normalization and the LU factorization/solve. -/
theorem C1_not_implemented {G C n : ℕ} {NodeFeats EdgeFeats Out : Type}
    (skip_connection : Bool)
    (dense_H : NodeFeats → EdgeFeats → BDense G C n)
    (diag_mlp : NodeFeats → Fin G → Fin C → Fin n → ℚ)
    (tail : BDense G C n → Out)
    (node_feats : NodeFeats) (edge_feats : EdgeFeats)
    (matrix_feats : Option (BDense G C n)) :
    MatrixFunctionBlock.forward "normalised_laplacian" skip_connection
        dense_H diag_mlp tail node_feats edge_feats matrix_feats
      = (MatrixFunctionBlock.front_steps,
         Except.error PyError.notImplementedError)
    ∧ MFStep.addEpsilon ∉ MatrixFunctionBlock.front_steps
    ∧ MFStep.matrixNorm ∉ MatrixFunctionBlock.front_steps
    ∧ MFStep.luFactor ∉ MatrixFunctionBlock.front_steps
    ∧ MFStep.luSolve ∉ MatrixFunctionBlock.front_steps := by
  have h := set_diagonal_normalised (dense_H node_feats edge_feats)
    (diag_mlp node_feats)
  exact ⟨by simp [MatrixFunctionBlock.forward, h], by decide, by decide,
    by decide, by decide⟩

/-- Claim C2: in evaluation mode, a forward pass of `SwitchNorm1d` and of
`EigenvalueNorm` leaves the whole state (in particular the `running_mean`
and `running_var` buffers) unchanged, and a second forward pass from the
resulting state with the same input returns the same output. -/
theorem C2_eval_determinism (expf sqrtf : ℚ → ℚ) (s : SwitchState)
    (hs : s.training = false) (b f : ℕ) (x : ℕ → ℕ → ℚ)
    (es : EigState) (he : es.training = false) (B F N : ℕ)
    (xe : ℕ → ℕ → ℕ → ℕ → ℚ) (mask : Option (ℕ → ℕ → ℚ)) :
    (SwitchNorm1d.forward expf sqrtf s b f x).1 = s
    ∧ (SwitchNorm1d.forward expf sqrtf
          ((SwitchNorm1d.forward expf sqrtf s b f x).1) b f x).2
        = (SwitchNorm1d.forward expf sqrtf s b f x).2
    ∧ (EigenvalueNorm.forward sqrtf es B F N xe mask).1 = es
    ∧ (EigenvalueNorm.forward sqrtf
          ((EigenvalueNorm.forward sqrtf es B F N xe mask).1) B F N xe mask).2
        = (EigenvalueNorm.forward sqrtf es B F N xe mask).2 := by
  have h1 : (SwitchNorm1d.forward expf sqrtf s b f x).1 = s := by
    simp [SwitchNorm1d.forward, SwitchNorm1d.updated_state, hs]
  have h2 : (EigenvalueNorm.forward sqrtf es B F N xe mask).1 = es := by
    simp [EigenvalueNorm.forward, EigenvalueNorm.updated_state, he]
  exact ⟨h1, by rw [h1], h2, by rw [h2]⟩

/-- Witness for claim C2 at a concrete evaluation-mode state and input. -/
theorem C2_witness :
    (SwitchNorm1d.forward id id { SwitchNorm1d.init 1 with training := false }
        1 1 (fun _ _ => 0)).1 = { SwitchNorm1d.init 1 with training := false }
    ∧ (SwitchNorm1d.forward id id
          ((SwitchNorm1d.forward id id
            { SwitchNorm1d.init 1 with training := false } 1 1
            (fun _ _ => 0)).1) 1 1 (fun _ _ => 0)).2
        = (SwitchNorm1d.forward id id
            { SwitchNorm1d.init 1 with training := false } 1 1
            (fun _ _ => 0)).2
    ∧ (EigenvalueNorm.forward id { EigenvalueNorm.init 1 with training := false }
          1 1 1 (fun _ _ _ _ => 0) none).1
        = { EigenvalueNorm.init 1 with training := false }
    ∧ (EigenvalueNorm.forward id
          ((EigenvalueNorm.forward id
            { EigenvalueNorm.init 1 with training := false } 1 1 1
            (fun _ _ _ _ => 0) none).1) 1 1 1 (fun _ _ _ _ => 0) none).2
        = (EigenvalueNorm.forward id
            { EigenvalueNorm.init 1 with training := false } 1 1 1
            (fun _ _ _ _ => 0) none).2 :=
  C2_eval_determinism id id { SwitchNorm1d.init 1 with training := false } rfl
    1 1 (fun _ _ => 0) { EigenvalueNorm.init 1 with training := false } rfl
    1 1 1 (fun _ _ _ _ => 0) none

/-- Claim C3: whenever the diagonal policy succeeds, the forward pass
continues with exactly the policy result plus `1e-9` on every diagonal
entry (off-diagonal entries untouched), for every policy, every input and
every row — including zero-padded ones. -/
theorem C3_epsilon {G C n : ℕ} {NodeFeats EdgeFeats Out : Type}
    (diagonal : String) (skip_connection : Bool)
    (dense_H : NodeFeats → EdgeFeats → BDense G C n)
    (diag_mlp : NodeFeats → Fin G → Fin C → Fin n → ℚ)
    (tail : BDense G C n → Out)
    (node_feats : NodeFeats) (edge_feats : EdgeFeats)
    (matrix_feats : Option (BDense G C n)) (H1 : BDense G C n)
    (h : MatrixFunctionBlock.set_diagonal diagonal
        (dense_H node_feats edge_feats) (diag_mlp node_feats)
      = Except.ok H1) :
    MatrixFunctionBlock.forward diagonal skip_connection dense_H diag_mlp
        tail node_feats edge_feats matrix_feats
      = (MatrixFunctionBlock.front_steps
           ++ MatrixFunctionBlock.tail_steps matrix_feats.isSome skip_connection,
         Except.ok (tail (match matrix_feats with
           | some M => fun g c i j =>
               MatrixFunctionBlock.add_eps H1 g c i j + M g c i j
           | none => MatrixFunctionBlock.add_eps H1)))
    ∧ (∀ g c i, MatrixFunctionBlock.add_eps H1 g c i i
        = H1 g c i i + 1 / 1000000000)
    ∧ (∀ g c i j, i ≠ j →
        MatrixFunctionBlock.add_eps H1 g c i j = H1 g c i j) := by
  refine ⟨?_, ?_, ?_⟩
  · cases matrix_feats <;> simp [MatrixFunctionBlock.forward, h]
  · intro g c i
    simp [MatrixFunctionBlock.add_eps]
  · intro g c i j hij
    simp [MatrixFunctionBlock.add_eps, hij]

/-- Witness for claim C3: with the Laplacian policy on a concrete input,
the diagonal entry of the regularized matrix is the policy result plus
`1e-9`. -/
theorem C3_witness :
    MatrixFunctionBlock.add_eps
        (fun g c => MatrixFunctionBlock.laplacian_diag (mfbDenseZero () () g c))
        0 0 0 0
      = (fun g c => MatrixFunctionBlock.laplacian_diag (mfbDenseZero () () g c))
          0 0 0 0 + 1 / 1000000000 :=
  (C3_epsilon "laplacian" false mfbDenseZero mfbDiagZero mfbTailUnit () () none
    (fun g c => MatrixFunctionBlock.laplacian_diag (mfbDenseZero () () g c))
    rfl).2.1 0 0 0

/-- Claim C4: the Laplacian diagonal policy maps `H` to
`diag(row-wise sum of abs H) - H` (diagonal entry: absolute row sum minus
the diagonal of `H`; off-diagonal entry: `-H`), and on the 3-node
fully-connected graph with unit scattered entries it yields diagonal
`n - 1 = 2` and off-diagonal `-1`. -/
theorem C4_laplacian {n : ℕ} (H : Fin n → Fin n → ℚ) :
    (∀ i, MatrixFunctionBlock.laplacian_diag H i i = (∑ j, |H i j|) - H i i)
    ∧ (∀ i j, i ≠ j → MatrixFunctionBlock.laplacian_diag H i j = - H i j)
    ∧ MatrixFunctionBlock.set_diagonal "laplacian" mfbK3 (fun _ _ _ => 0)
        = Except.ok (fun g c => MatrixFunctionBlock.laplacian_diag (mfbK3 g c))
    ∧ (∀ g c i j, MatrixFunctionBlock.laplacian_diag (mfbK3 g c) i j
        = mfbL3 g c i j) := by
  refine ⟨?_, ?_, rfl, ?_⟩
  · intro i
    simp [MatrixFunctionBlock.laplacian_diag, MatrixFunctionBlock.degree]
  · intro i j hij
    simp [MatrixFunctionBlock.laplacian_diag, MatrixFunctionBlock.degree, hij]
  · intro g c i j
    fin_cases g; fin_cases c; fin_cases i <;> fin_cases j <;>
      simp [MatrixFunctionBlock.laplacian_diag, MatrixFunctionBlock.degree,
        mfbK3, mfbL3, Fin.sum_univ_three] <;> norm_num

/-- Witness for claim C4 at a concrete off-diagonal position. -/
theorem C4_witness :
    MatrixFunctionBlock.laplacian_diag (mfbK3 0 0) 0 1 = - mfbK3 0 0 0 1 :=
  (C4_laplacian (mfbK3 0 0)).2.1 0 1 (by decide)

/-- Claim C5: `EquivariantProductBasisBlock.forward` returns
`linear(symmetric_contraction(node_feats, node_attrs)) + sc` exactly when
`use_sc` is true and `sc` is supplied; when `use_sc` is false or `sc` is
`None` it returns the linear image alone — the skip term is added after
the typed linear map. -/
theorem C5_skip_addition {NF NA B Out : Type} [Add Out]
    (symc : NF → NA → B) (lin : B → Out) (use_sc : Bool)
    (node_feats : NF) (sc : Option Out) (node_attrs : NA) :
    (∀ s : Out, use_sc = true → sc = some s →
      EquivariantProductBasisBlock.forward symc lin use_sc node_feats sc
          node_attrs
        = lin (symc node_feats node_attrs) + s)
    ∧ (use_sc = false →
      EquivariantProductBasisBlock.forward symc lin use_sc node_feats sc
          node_attrs
        = lin (symc node_feats node_attrs))
    ∧ (sc = none →
      EquivariantProductBasisBlock.forward symc lin use_sc node_feats sc
          node_attrs
        = lin (symc node_feats node_attrs)) := by
  refine ⟨?_, ?_, ?_⟩
  · intro s h1 h2
    subst h1; subst h2
    simp [EquivariantProductBasisBlock.forward]
  · intro h
    subst h
    simp [EquivariantProductBasisBlock.forward]
  · intro h
    subst h
    cases use_sc <;> simp [EquivariantProductBasisBlock.forward]

/-- Witness for claim C5 with a supplied skip term. -/
theorem C5_witness :
    EquivariantProductBasisBlock.forward (fun a b : ℚ => a + b)
        (fun v : ℚ => 2 * v) true (3 : ℚ) (some 5) (4 : ℚ)
      = 2 * (3 + 4) + 5 :=
  (C5_skip_addition (fun a b : ℚ => a + b) (fun v : ℚ => 2 * v) true 3
    (some 5) 4).1 5 rfl rfl

/-- Claim C6: with `learnable_resolvent=True` the imaginary part of every
pole equals `exp(z_k_complex)` and is strictly positive for every real
parameter value; with `learnable_resolvent=False` every pole is
`0 + i * 1`. -/
theorem C6_poles (zr zc : ℝ) :
    (MatrixFunctionBlock.z_k true zr zc).im = Real.exp zc
    ∧ 0 < (MatrixFunctionBlock.z_k true zr zc).im
    ∧ (MatrixFunctionBlock.z_k false zr zc).re = 0
    ∧ (MatrixFunctionBlock.z_k false zr zc).im = 1 := by
  refine ⟨by simp [MatrixFunctionBlock.z_k], ?_,
    by simp [MatrixFunctionBlock.z_k], by simp [MatrixFunctionBlock.z_k]⟩
  simpa [MatrixFunctionBlock.z_k] using Real.exp_pos zc

/-- Claim C7: permuting the edge list (sender, receiver, attributes and
features move together, so the multiset of per-node incoming messages is
preserved) changes neither the `scatter_sum` aggregate nor the outputs of
the residual element-dependent and real-agnostic interaction blocks. -/
theorem C7_permutation_invariance {NA NF EA EF TW M W R : Type}
    [AddCommMonoid M] [AddCommGroup W] [Module ℚ W]
    (skip_tp : NF → NA → W) (linear_up : NF → NF)
    (conv_tp_weights : NA → EF → TW) (conv_tp : NF → EA → TW → M)
    (linear : M → W) (conv_tp_weights2 : EF → TW) (skip_tp2 : W → NA → W)
    (reshape : W → R) (avg : ℚ) (node_attrs : ℕ → NA) (node_feats : ℕ → NF)
    (edges edges' : List (EdgeInput EA EF)) (h : edges.Perm edges') :
    (∀ f : EdgeInput EA EF → ℕ × M,
       scatter_sum (edges.map f) = scatter_sum (edges'.map f))
    ∧ ResidualElementDependentInteractionBlock.forward skip_tp linear_up
        conv_tp_weights conv_tp linear avg node_attrs node_feats edges
      = ResidualElementDependentInteractionBlock.forward skip_tp linear_up
        conv_tp_weights conv_tp linear avg node_attrs node_feats edges'
    ∧ RealAgnosticInteractionBlock.forward linear_up conv_tp_weights2 conv_tp
        linear skip_tp2 reshape avg node_attrs node_feats edges
      = RealAgnosticInteractionBlock.forward linear_up conv_tp_weights2 conv_tp
        linear skip_tp2 reshape avg node_attrs node_feats edges' := by
  have key : ∀ f : EdgeInput EA EF → ℕ × M,
      scatter_sum (edges.map f) = scatter_sum (edges'.map f) :=
    fun f => scatter_sum_perm (h.map f)
  have hm1 : ResidualElementDependentInteractionBlock.message linear_up
      conv_tp_weights conv_tp node_attrs node_feats edges
    = ResidualElementDependentInteractionBlock.message linear_up
      conv_tp_weights conv_tp node_attrs node_feats edges' := by
    simp only [ResidualElementDependentInteractionBlock.message]
    rw [key _]
  have hm2 : RealAgnosticInteractionBlock.message linear_up conv_tp_weights2
      conv_tp node_feats edges
    = RealAgnosticInteractionBlock.message linear_up conv_tp_weights2
      conv_tp node_feats edges' := by
    simp only [RealAgnosticInteractionBlock.message]
    rw [key _]
  exact ⟨key,
    congrArg (fun msg : ℕ → M => (fun i =>
      (avg)⁻¹ • linear (msg i) + skip_tp (node_feats i) (node_attrs i) :
        ℕ → W)) hm1,
    congrArg (fun msg : ℕ → M => ((fun i =>
      reshape (skip_tp2 ((avg)⁻¹ • linear (msg i)) (node_attrs i)) : ℕ → R),
      (none : Option Unit))) hm2⟩

/-- Witness for claim C7: swapping the two edges of a concrete graph
leaves the residual element-dependent block output unchanged. -/
theorem C7_witness :
    ResidualElementDependentInteractionBlock.forward (fun a b : ℚ => a * b)
        (fun a : ℚ => a + 1) (fun a e : ℚ => a + e)
        (fun nf ea tw : ℚ => nf * ea + tw) (fun m : ℚ => 2 * m) 2
        (fun i => (i : ℚ)) (fun i => (i : ℚ) + 1)
        ([⟨0, 1, 1, 2⟩, ⟨1, 0, 3, 4⟩] : List (EdgeInput ℚ ℚ))
      = ResidualElementDependentInteractionBlock.forward (fun a b : ℚ => a * b)
        (fun a : ℚ => a + 1) (fun a e : ℚ => a + e)
        (fun nf ea tw : ℚ => nf * ea + tw) (fun m : ℚ => 2 * m) 2
        (fun i => (i : ℚ)) (fun i => (i : ℚ) + 1)
        ([⟨1, 0, 3, 4⟩, ⟨0, 1, 1, 2⟩] : List (EdgeInput ℚ ℚ)) :=
  (C7_permutation_invariance (fun a b : ℚ => a * b) (fun a : ℚ => a + 1)
    (fun a e : ℚ => a + e) (fun nf ea tw : ℚ => nf * ea + tw)
    (fun m : ℚ => 2 * m) (fun e : ℚ => e) (fun w a : ℚ => w + a)
    (fun w : ℚ => w) 2 (fun i => (i : ℚ)) (fun i => (i : ℚ) + 1)
    ([⟨0, 1, 1, 2⟩, ⟨1, 0, 3, 4⟩] : List (EdgeInput ℚ ℚ))
    ([⟨1, 0, 3, 4⟩, ⟨0, 1, 1, 2⟩] : List (EdgeInput ℚ ℚ))
    (List.Perm.swap (⟨1, 0, 3, 4⟩ : EdgeInput ℚ ℚ)
      (⟨0, 1, 1, 2⟩ : EdgeInput ℚ ℚ) [])).2.1

/-- Claim C8: `SwitchNorm1d.forward` fails with a `ValueError` on every
input whose rank is not 2, before computing any statistic (the error
result carries no updated state); on rank-2 input the dimension check
never raises and the pass completes. -/
theorem C8_dim_check (expf sqrtf : ℚ → ℚ) (s : SwitchState) (t : PTensor) :
    (t.dims.length ≠ 2 →
      SwitchNorm1d.forwardTensor expf sqrtf s t
        = Except.error (PyError.valueError
            ("expected 2D input (got " ++ toString t.dims.length
              ++ "D input)")))
    ∧ (t.dims.length = 2 →
      ∃ r, SwitchNorm1d.forwardTensor expf sqrtf s t = Except.ok r) := by
  constructor
  · intro h
    simp [SwitchNorm1d.forwardTensor, SwitchNorm1d.check_input_dim, h]
  · intro h
    have hc : SwitchNorm1d.check_input_dim t.dims.length = Except.ok () := by
      simp [SwitchNorm1d.check_input_dim, h]
    unfold SwitchNorm1d.forwardTensor
    rw [hc]
    exact ⟨_, rfl⟩

/-- Witness for claim C8: a rank-3 input fails with the formatted
`ValueError`, a rank-2 input succeeds. -/
theorem C8_witness :
    SwitchNorm1d.forwardTensor id id (SwitchNorm1d.init 1) ⟨[1, 1, 1], []⟩
      = Except.error (PyError.valueError "expected 2D input (got 3D input)")
    ∧ ∃ r, SwitchNorm1d.forwardTensor id id (SwitchNorm1d.init 1)
        ⟨[1, 1], [0]⟩ = Except.ok r :=
  ⟨(C8_dim_check id id (SwitchNorm1d.init 1) ⟨[1, 1, 1], []⟩).1 (by decide),
   (C8_dim_check id id (SwitchNorm1d.init 1) ⟨[1, 1], [0]⟩).2 rfl⟩

/-- Claim C9: the normalization applied by `EigenvalueNorm.forward` is a
pure function of the (post-update) `running_mean` and `running_var`
buffers — subtract the mean on the diagonal, divide by
`sqrt(running_var + eps)` — in training mode as well as evaluation mode;
the batch statistics reach the output only through the
exponential-moving-average buffer update, and in evaluation mode the
buffers are left frozen. -/
theorem C9_uses_running_buffers (sqrtf : ℚ → ℚ) (s : EigState) (B F N : ℕ)
    (x : ℕ → ℕ → ℕ → ℕ → ℚ) (mask : Option (ℕ → ℕ → ℚ)) :
    (EigenvalueNorm.forward sqrtf s B F N x mask).2
      = EigenvalueNorm.apply_stats sqrtf s.eps
          ((EigenvalueNorm.forward sqrtf s B F N x mask).1.running_mean)
          ((EigenvalueNorm.forward sqrtf s B F N x mask).1.running_var)
          s.weight s.bias (EigenvalueNorm.mask_matrix mask) x
    ∧ (s.training = true → s.using_moving_average = true →
        (EigenvalueNorm.forward sqrtf s B F N x mask).1.running_mean
          = fun f => s.momentum * s.running_mean f
              + (1 - s.momentum)
                * (EigenvalueNorm.mean_and_variance_trace B N
                    (EigenvalueNorm.mask_matrix mask) x).1 f)
    ∧ (s.training = false →
        (EigenvalueNorm.forward sqrtf s B F N x mask).1 = s) := by
  refine ⟨rfl, ?_, ?_⟩
  · intro h1 h2
    simp [EigenvalueNorm.forward, EigenvalueNorm.updated_state, h1, h2]
  · intro h
    simp [EigenvalueNorm.forward, EigenvalueNorm.updated_state, h]

/-- Witness for claim C9: a concrete training-mode pass performs exactly
the exponential-moving-average update of the running mean. -/
theorem C9_witness :
    (EigenvalueNorm.forward id (EigenvalueNorm.init 1) 1 1 1
        (fun _ _ _ _ => 0) none).1.running_mean
      = fun f => (EigenvalueNorm.init 1).momentum
            * (EigenvalueNorm.init 1).running_mean f
          + (1 - (EigenvalueNorm.init 1).momentum)
            * (EigenvalueNorm.mean_and_variance_trace 1 1
                (EigenvalueNorm.mask_matrix none) (fun _ _ _ _ => 0)).1 f :=
  (C9_uses_running_buffers id (EigenvalueNorm.init 1) 1 1 1
    (fun _ _ _ _ => 0) none).2.1 rfl rfl

/-- Claim C10: after `SwitchNorm1d` construction and after every
`reset_parameters` call, both running buffers are all zeros (the variance
buffer too, not ones); consequently in evaluation mode, before any
training-mode pass, the batch component of the blended variance is exactly
zero and the blend reduces to its layer-wise component. -/
theorem C10_zero_running_buffers (expf : ℚ → ℚ) (nf : ℕ) (s : SwitchState)
    (b f : ℕ) (x : ℕ → ℕ → ℚ) :
    (SwitchNorm1d.init nf).running_mean = (fun _ => 0)
    ∧ (SwitchNorm1d.init nf).running_var = (fun _ => 0)
    ∧ (SwitchNorm1d.reset_parameters s).running_mean = (fun _ => 0)
    ∧ (SwitchNorm1d.reset_parameters s).running_var = (fun _ => 0)
    ∧ SwitchNorm1d.var_bn_used { SwitchNorm1d.init nf with training := false }
        b x = (fun _ => 0)
    ∧ (∀ i j, SwitchNorm1d.blended_var expf
          { SwitchNorm1d.init nf with training := false } b f x i j
        = SwitchNorm1d.softmax expf (SwitchNorm1d.init nf).var_weight 0
            * SwitchNorm1d.var_ln f x i) := by
  refine ⟨rfl, rfl, rfl, rfl, ?_, ?_⟩
  · simp [SwitchNorm1d.var_bn_used, SwitchNorm1d.init,
      SwitchNorm1d.reset_parameters]
  · intro i j
    simp [SwitchNorm1d.blended_var, SwitchNorm1d.var_bn_used,
      SwitchNorm1d.init, SwitchNorm1d.reset_parameters]
